import Mathlib

/-!
Verification of the UltraFastIPC worker (src/UltraFastIPC/UltraFastIPC.cpp)
against its natural-language specification.

The C++ worker polls a shared-memory mailbox, dispatches textual commands to
an external pe32 driver layer, writes a textual response back, and monitors
its parent process for liveness.  This file gives a shallow embedding of that
worker: the mailbox struct, the `Split` tokenizer, the command-dispatch chain
of `ProcessRequestUltraFast` / `ProcessCommonAPI` (each if-branch recorded as
a row of a lookup table: command name, argument conversions, result kind),
the completion writes, and one iteration of the `StartProcessing` poll loop
together with its parent-liveness check.  External pe32 driver calls are kept
opaque behind an environment of abstract result functions.

Outcomes of C++ evaluation are modelled by `Exec`: a value, a thrown C++
exception (catchable by the `catch (...)` at the dispatch boundary), or a
fault, i.e. undefined behaviour such as an out-of-bounds `std::vector`
access, which no handler catches.  Stores performed by the worker are also
recorded as an explicit event trace so that ordering properties of the
handshake can be stated.
-/

/-- Outcome of evaluating a piece of C++ code: a normal value, a thrown C++
exception (catchable by `catch (...)`), or undefined behaviour (`fault`),
e.g. an out-of-bounds `std::vector::operator[]` access, which is not an
exception and is not caught. -/
inductive Exec (α : Type) where
  | ok (a : α)
  | thrown
  | fault
deriving DecidableEq

def Exec.bind {α β : Type} : Exec α → (α → Exec β) → Exec β
  | .ok a, f => f a
  | .thrown, _ => .thrown
  | .fault, _ => .fault

instance : Monad Exec where
  pure := Exec.ok
  bind := Exec.bind

/-- `std::vector::operator[]` : in-range access yields the element, an
out-of-range index is undefined behaviour (no bounds check, no exception). -/
def vecGet {α : Type} (v : List α) (i : Nat) : Exec α :=
  match v.get? i with
  | some a => Exec.ok a
  | none => Exec.fault

/-- The whitespace characters skipped by `strtol`/C `isspace`. -/
def isSpaceCpp (c : Char) : Bool :=
  c = ' ' || c = '\t' || c = '\n' || c = '\x0b' || c = '\x0c' || c = '\r'

/-- Decimal value of a digit string. -/
def digitsToNat (ds : List Char) : Nat :=
  ds.foldl (fun a c => a * 10 + (c.toNat - 48)) 0

/-- `std::stoi` (base 10): skip leading whitespace, optional sign, then
digits; throws `invalid_argument` when no digits follow and `out_of_range`
when the value does not fit a 32-bit `int`.  Trailing non-digit characters
are ignored, exactly as `strtol` stops at the first non-digit. -/
def strtolInt (s : String) : Exec Int :=
  let cs := s.data.dropWhile isSpaceCpp
  let p : Int × List Char :=
    match cs with
    | '+' :: r => (1, r)
    | '-' :: r => (-1, r)
    | _ => (1, cs)
  let ds := p.2.takeWhile Char.isDigit
  if ds.isEmpty then Exec.thrown
  else
    let v : Int := p.1 * (digitsToNat ds : Nat)
    if v < -(2 ^ 31) ∨ 2 ^ 31 ≤ v then Exec.thrown else Exec.ok v

/-- `std::stoi` as used by the dispatch chain. -/
def stoiCpp (s : String) : Exec Int := strtolInt s

/-- `std::stol`; on the 32-bit MSVC target of this source, `long` is also a
32-bit type, so the accepted range coincides with `stoi`. -/
def stolCpp (s : String) : Exec Int := strtolInt s

/-- `std::stod`, modelled only up to whether a conversion is possible: after
optional whitespace and sign the input must start with a digit, or with a
decimal point followed by a digit; otherwise `invalid_argument` is thrown.
The numeric value of the double is abstracted away (every use in the source
passes it to a void external call).  The hexadecimal, infinity and nan
spellings of `strtod` are not modelled; no claim depends on them. -/
def stodCpp (s : String) : Exec Unit :=
  let cs := s.data.dropWhile isSpaceCpp
  let r : List Char :=
    match cs with
    | '+' :: t => t
    | '-' :: t => t
    | _ => cs
  match r with
  | [] => Exec.thrown
  | c :: rest =>
    if c.isDigit then Exec.ok ()
    else if c = '.' then
      match rest with
      | [] => Exec.thrown
      | d :: _ => if d.isDigit then Exec.ok () else Exec.thrown
    else Exec.thrown

/-- Helper for `Split`: walk the characters, collecting the current token in
reverse in `acc`.  Mirrors the `while (getline(ss, item, delimiter))` loop of
the source: when end of input is reached, `getline` fails without producing a
token iff it could extract no characters, so a trailing empty segment is
dropped (and an empty input yields no token at all). -/
def splitAux (delimiter : Char) : List Char → List Char → List String
  | [], acc => if acc.isEmpty then [] else [String.mk acc.reverse]
  | c :: rest, acc =>
    if c = delimiter then String.mk acc.reverse :: splitAux delimiter rest []
    else splitAux delimiter rest (c :: acc)

/-- `UltraFastIPCServer::Split`: tokenize with `std::getline` on a single
delimiter, keeping interior empty tokens. -/
def Split (s : String) (delimiter : Char) : List String :=
  splitAux delimiter s.data []

/-- Argument-conversion kinds appearing in the dispatch chain, one per local
variable initialisation before an external call. -/
inductive Conv where
  /-- `std::stoi(tokens[k])`, value passed to the external call. -/
  | ci
  /-- `std::stol(tokens[k])`, value passed to the external call. -/
  | cl
  /-- `std::stod(tokens[k])`, value passed to the external call. -/
  | cd
  /-- `tokens[k]` passed as a C string (`c_str` / copied `char*`).  In the
  `pe32_user_fram_load` branch the token is read only for its size — the
  driver receives a freshly allocated buffer of that size — but the
  `tokens[k]` access itself is the same. -/
  | cs
  /-- `std::stol(tokens[k])` and then the same token also passed as a C
  string: the `pe32_lmsave` branch reads `tokens[4]` twice. -/
  | cls
  /-- `std::stoi(tokens[k])` whose value is then not passed on: the
  `pe32_rffe_getword` branch converts `tokens[3]` but calls the driver with
  only the first two arguments. -/
  | cix
deriving DecidableEq

/-- Argument values handed to the opaque pe32 driver layer.  Double values
are abstracted (they only ever flow into void driver calls). -/
inductive Val where
  | vi (n : Int)
  | vd
  | vs (s : String)
deriving DecidableEq

/-- What a dispatch branch does with its external call's result. -/
inductive RetKind where
  /-- Void call: `response` is left unchanged. -/
  | nr
  /-- `response = std::to_string(<driver call>)`. -/
  | rv
  /-- `response = std::to_string(<output parameter>)`: the
  `pe32_srd_rdblock32` branch. -/
  | ro
  /-- `response = pe32_get_msg()`: the driver returns the string itself. -/
  | rm
deriving DecidableEq

/-- The opaque external pe32 driver layer: result of a value-returning call,
value left in an output parameter, the `pe32_get_msg` string, and whether a
given call throws (a C++ exception escaping the driver is caught by the
`catch (...)` like any other). -/
structure Pe32Env where
  ret : String → List Val → Int
  outp : String → List Val → Int
  msg : String
  throws : String → List Val → Bool

/-- Run one argument conversion on one token, yielding the values it
contributes to the external call. -/
def runConv (c : Conv) (tok : String) : Exec (List Val) :=
  match c with
  | .ci => Exec.bind (stoiCpp tok) fun n => Exec.ok [Val.vi n]
  | .cl => Exec.bind (stolCpp tok) fun n => Exec.ok [Val.vi n]
  | .cd => Exec.bind (stodCpp tok) fun _ => Exec.ok [Val.vd]
  | .cs => Exec.ok [Val.vs tok]
  | .cls => Exec.bind (stolCpp tok) fun n => Exec.ok [Val.vi n, Val.vs tok]
  | .cix => Exec.bind (stoiCpp tok) fun _ => Exec.ok []

/-- Convert the arguments of a branch in source order: conversion `k` of the
list reads `tokens[i + k]`.  Each read is a `std::vector::operator[]` access
(undefined behaviour when out of range) followed by the conversion (which may
throw). -/
def convArgs : List Conv → List String → Nat → Exec (List Val)
  | [], _, _ => Exec.ok []
  | c :: rest, tokens, i => do
    let tok ← vecGet tokens i
    let vs ← runConv c tok
    let more ← convArgs rest tokens (i + 1)
    pure (vs ++ more)

/-- Execute one branch of the dispatch chain: convert the arguments from
`tokens[1..]`, perform the external call, and produce the new `response`. -/
def runBranch (env : Pe32Env) (name : String) (convs : List Conv)
    (rk : RetKind) (tokens : List String) (response : String) : Exec String := do
  let args ← convArgs convs tokens 1
  if env.throws name args then Exec.thrown
  else
    match rk with
    | .nr => pure response
    | .rv => pure (toString (env.ret name args))
    | .ro => pure (toString (env.outp name args))
    | .rm => pure env.msg

/-- Rows 1-20 of the `ProcessCommonAPI` chain (source order). -/
def commonTableA : List (String × List Conv × RetKind) := [
  ("pe32_set_fallingskew", [.ci, .ci, .ci], .nr),
  ("pe32_set_rcvskew", [.ci, .ci, .ci], .nr),
  ("pe32_set_rcvfallingskew", [.ci, .ci, .ci], .nr),
  ("pe32_getch", [.ci, .ci], .rv),
  ("pe32_getcl", [.ci, .ci], .rv),
  ("pemu32_rst_pe", [.ci], .nr),
  ("pemu32_set_driver", [.ci, .ci, .ci], .nr),
  ("pe32_counter_ctp", [.ci, .cl], .nr),
  ("pe32_counter_start", [.ci, .ci], .nr),
  ("pe32_counter_select_ch", [.ci, .ci], .nr),
  ("pe32_counter_rd", [.ci], .rv),
  ("pe32_counter_rdfrq", [.ci], .rv),
  ("pe32_counter_tmmode", [.ci, .ci], .nr),
  ("pe32_tmu_cstart_inv", [.ci, .ci], .nr),
  ("pe32_tmu_cstop_inv", [.ci, .ci], .nr),
  ("pe32_tmu_select_cstart", [.ci, .ci], .nr),
  ("pe32_tmu_select_cstop", [.ci, .ci], .nr),
  ("pe32_rd_pesno", [.ci], .rv),
  ("pe32_get_temp", [.ci, .ci], .rv),
  ("pe32_set_srdmode", [.ci, .ci], .nr)]

/-- Rows 21-40 of the `ProcessCommonAPI` chain (source order). -/
def commonTableB : List (String × List Conv × RetKind) := [
  ("pe32_set_logadd", [.ci, .cl], .nr),
  ("pe32_srd_select_ch", [.ci, .ci], .nr),
  ("pe32_srd_getword", [.ci], .rv),
  ("pe32_srd_getword2", [.ci], .rv),
  ("pe32_srd_getsrword", [.ci, .ci], .rv),
  ("pe32_srd_rdblock32", [.ci, .cl], .ro),
  ("pe32_setReg", [.ci, .ci, .ci, .ci], .nr),
  ("pe32_dc_range", [.ci, .ci], .nr),
  ("pe32_set_lmsyn_active_high", [.ci, .ci], .nr),
  ("pe32_set_lmsyn_ch", [.ci, .ci], .nr),
  ("pe32_rd_logcnt", [.ci], .rv),
  ("pe32_reset_lmiomk", [.ci], .nr),
  ("pe32_con_2k2vtt", [.ci, .ci, .ci, .cd], .nr),
  ("pe32_get_msg", [], .rm),
  ("pe32_set_rffemode", [.ci, .ci, .ci], .nr),
  ("pe32_rffe_ftp", [.ci, .ci, .ci], .nr),
  ("pe32_rffe_pclk", [.ci, .ci], .nr),
  ("pe32_rffe_wr", [.ci, .ci, .ci, .ci, .ci], .nr),
  ("pe32_rffe_rd", [.ci, .ci, .ci, .ci], .rv),
  ("pe32_rffe_ewr", [.ci, .ci, .ci, .ci, .ci, .ci], .nr)]

/-- Rows 41-59 of the `ProcessCommonAPI` chain (source order). -/
def commonTableC : List (String × List Conv × RetKind) := [
  ("pe32_rffe_erd", [.ci, .ci, .ci, .ci, .ci], .rv),
  ("pe32_rffe_getword", [.ci, .ci, .cix], .rv),
  ("pe32_rffe_wr0", [.ci, .ci, .ci, .ci], .nr),
  ("pe32_rffe_elwr", [.ci, .ci, .ci, .ci, .ci, .ci], .nr),
  ("pe32_rffe_elrd", [.ci, .ci, .ci, .ci, .ci], .rv),
  ("pe32_rffe_cmdwr", [.ci, .ci, .ci, .ci, .ci, .ci, .ci], .nr),
  ("pe32_rffe_cmdrd", [.ci, .ci, .ci, .ci, .ci, .ci, .ci], .nr),
  ("pe32_set_qmode", [.ci, .ci], .nr),
  ("pe32_check_qfail", [.ci, .ci], .rv),
  ("pe32_set_rodvhdvl", [.ci, .ci, .ci, .ci], .nr),
  ("pe32_rd_PciRevId", [.ci], .rv),
  ("pe32_rd_PciDevId", [.ci], .rv),
  ("pe32_rd_PciSubId", [.ci], .rv),
  ("pe32_trig_mv", [.ci, .ci, .ci], .nr),
  ("pe32_trig_mi", [.ci, .ci, .ci], .nr),
  ("pe32_trig_imeas", [.ci, .ci], .rv),
  ("pe32_trig_vmeas", [.ci, .ci], .rv),
  ("pe32_user_fram_save", [.ci, .ci, .cs, .ci], .nr),
  ("pe32_user_fram_load", [.ci, .ci, .cs, .ci], .rv)]

/-- The if-else chain of `UltraFastIPCServer::ProcessCommonAPI`, one row per
branch in source order: command name, argument conversions, result kind.
Split into three pieces only to keep elaboration fast. -/
def commonTable : List (String × List Conv × RetKind) :=
  commonTableA ++ commonTableB ++ commonTableC

/-- Rows 1-20 of the `ProcessRequestUltraFast` chain (source order). -/
def serverTableA : List (String × List Conv × RetKind) := [
  ("pe32_init", [], .rv),
  ("pe32_usb", [], .rv),
  ("pe32_readl", [.ci, .ci], .rv),
  ("pe32_writel", [.ci, .ci, .ci], .nr),
  ("pe32_set_sctl", [.ci, .ci], .nr),
  ("pe32_set_sdata", [.ci, .ci], .nr),
  ("pe32_rd_sio", [.ci], .rv),
  ("pe32_wr_pe", [.ci, .ci, .ci, .ci], .nr),
  ("pe32_rd_pe", [.ci, .ci, .ci], .rv),
  ("pe32_rst_pe", [.ci], .nr),
  ("pe32_usleep", [.ci], .nr),
  ("pe32_init", [], .rv),
  ("pe32_api", [], .rv),
  ("pe32_reset", [.ci], .nr),
  ("pe32_fdiag", [.ci], .rv),
  ("pe32_fstart", [.ci, .ci], .nr),
  ("pe32_diag_fstart", [.ci, .ci], .nr),
  ("pe32_cycle", [.ci, .ci], .nr),
  ("pe32_check_reset", [.ci], .rv),
  ("pe32_check_fstart", [.ci], .rv)]

/-- Rows 21-40 of the `ProcessRequestUltraFast` chain (source order). -/
def serverTableB : List (String × List Conv × RetKind) := [
  ("pe32_check_cycle", [.ci], .rv),
  ("pe32_check_tprun", [.ci], .rv),
  ("pe32_check_sync", [.ci], .rv),
  ("pe32_check_testbeg", [.ci], .rv),
  ("pe32_check_tpass", [.ci], .rv),
  ("pe32_check_ftend", [.ci], .rv),
  ("pe32_check_lend", [.ci], .rv),
  ("pe32_set_pxi", [.ci, .ci], .nr),
  ("pe32_pxi_fstart", [.ci, .ci, .ci], .nr),
  ("pe32_pxi_cfail", [.ci, .ci, .ci], .nr),
  ("pe32_pxi_lmsyn", [.ci, .ci, .ci], .nr),
  ("pe32_set_addbeg", [.ci, .cl], .nr),
  ("pe32_set_addend", [.ci, .cl], .nr),
  ("pe32_set_ftcnt", [.ci, .cl], .nr),
  ("pe32_set_addsyn", [.ci, .cl], .nr),
  ("pe32_set_addif", [.ci, .cl], .nr),
  ("pe32_set_logadd", [.ci, .cl], .nr),
  ("pe32_set_seq", [.ci, .cl], .nr),
  ("pe32_set_lmf", [.ci, .cl], .nr),
  ("pe32_set_mmsk", [.ci, .cl], .nr)]

/-- Rows 41-60 of the `ProcessRequestUltraFast` chain (source order); the
first row is the source's duplicate `pe32_set_mmsk` branch. -/
def serverTableC : List (String × List Conv × RetKind) := [
  ("pe32_set_mmsk", [.ci, .cl], .nr),
  ("pe32_set_tp", [.ci, .ci, .cl], .nr),
  ("pe32_set_tstrob", [.ci, .ci, .ci, .cl], .nr),
  ("pe32_set_tstart", [.ci, .ci, .ci, .cl], .nr),
  ("pe32_set_tstop", [.ci, .ci, .ci, .cl], .nr),
  ("pe32_set_rz", [.ci, .ci, .cl], .nr),
  ("pe32_set_ro", [.ci, .ci, .cl], .nr),
  ("pe32_set_io", [.ci, .ci, .cl], .nr),
  ("pe32_set_mk", [.ci, .ci, .cl], .nr),
  ("pe32_set_dstrob", [.ci, .ci, .ci, .cl, .cl], .nr),
  ("pe32_rd_actseq", [.ci], .nr),
  ("pe32_rd_actlmf", [.ci], .rv),
  ("pe32_rd_actlmd", [.ci], .rv),
  ("pe32_rd_actlmm", [.ci], .rv),
  ("pe32_rd_actlmadd", [.ci], .rv),
  ("pe32_rd_pxibus", [.ci], .rv),
  ("pe32_rd_id", [.ci], .rv),
  ("pe32_rd_vc", [.ci], .rv),
  ("pe32_rd_seq", [.ci], .rv),
  ("pe32_rd_lmf", [.ci], .rv)]

/-- Rows 61-80 of the `ProcessRequestUltraFast` chain (source order). -/
def serverTableD : List (String × List Conv × RetKind) := [
  ("pe32_rd_lmd", [.ci], .rv),
  ("pe32_rd_lmm", [.ci], .rv),
  ("pe32_rd_lmadd", [.ci], .rv),
  ("pe32_lmload", [.ci, .ci, .cl, .cs], .rv),
  ("pe32_lmsave", [.ci, .ci, .cl, .cls], .rv),
  ("pe32_rd_cmph", [.ci], .rv),
  ("pe32_rd_cmpl", [.ci], .rv),
  ("pe32_rd_creg", [.ci], .rv),
  ("pe32_rd_ftcnt", [.ci], .rv),
  ("pe32_rd_fccnt", [.ci], .rv),
  ("pe32_rd_flcnt", [.ci], .rv),
  ("pe32_rd_clog", [.ci, .ci], .rv),
  ("pe32_rd_alog", [.ci, .ci], .rv),
  ("pe32_rd_logadd", [.ci], .rv),
  ("pe32_rd_alogclog", [.ci, .ci], .rv),
  ("pe32_dump_alogclog", [.ci, .ci], .rv),
  ("pe32_set_dumpmode", [.ci, .ci], .nr),
  ("pe32_dump_getclog", [.ci, .ci], .rv),
  ("pe32_dump_getalog", [.ci, .ci], .rv),
  ("pe32_dump_getalogclog", [.ci, .ci], .rv)]

/-- Rows 81-100 of the `ProcessRequestUltraFast` chain (source order). -/
def serverTableE : List (String × List Conv × RetKind) := [
  ("pe32_check_dataready", [.ci], .rv),
  ("pe32_check_checkmode", [.ci], .rv),
  ("pe32_check_logmode", [.ci], .rv),
  ("pe32_check_trigmode", [.ci], .rv),
  ("pe32_check_dualmode", [.ci], .rv),
  ("pe32_set_trigmode", [.ci, .ci], .nr),
  ("pe32_set_logmode", [.ci, .ci], .nr),
  ("pe32_check_ucnt", [.ci], .rv),
  ("pe32_set_checkmode", [.ci, .ci], .nr),
  ("pe32_set_vih", [.ci, .ci, .cd], .nr),
  ("pe32_set_vil", [.ci, .ci, .cd], .nr),
  ("pe32_set_voh", [.ci, .ci, .cd], .nr),
  ("pe32_set_vol", [.ci, .ci, .cd], .nr),
  ("pe32_set_driver", [.ci, .ci, .ci], .nr),
  ("pe32_cpu_df", [.ci, .ci, .ci, .ci], .nr),
  ("pe32_pmufv", [.ci, .ci, .cd, .cd], .nr),
  ("pe32_pmufi", [.ci, .ci, .cd, .cd, .cd], .nr),
  ("pe32_pmufir", [.ci, .ci, .cd, .cd, .cd, .ci], .nr),
  ("pe32_vmeas", [.ci, .ci], .nr),
  ("pe32_imeas", [.ci, .ci], .nr)]

/-- Rows 101-117 of the `ProcessRequestUltraFast` chain (source order). -/
def serverTableF : List (String × List Conv × RetKind) := [
  ("pe32_pmucv", [.ci, .ci, .ci, .ci], .nr),
  ("pe32_pmuci", [.ci, .ci, .ci, .ci], .nr),
  ("pe32_con_pmu", [.ci, .ci, .ci], .nr),
  ("pe32_con_pmus", [.ci, .ci, .ci], .nr),
  ("pe32_con_receiver", [.ci, .ci, .ci], .nr),
  ("pe32_check_pmu", [.ci, .ci], .rv),
  ("pe32_pmuch", [.ci, .ci], .rv),
  ("pe32_pmucl", [.ci, .ci], .rv),
  ("pe32_cal_load", [.ci, .cs], .rv),
  ("pe32_cal_save", [.ci, .cs], .rv),
  ("pe32_cal_load_auto", [.ci, .cs], .rv),
  ("pe32_cal_save_auto", [.ci, .cs], .rv),
  ("pe32_cal_reset", [.ci], .nr),
  ("pe32_con_esense", [.ci, .ci, .ci], .nr),
  ("pe32_con_eforce", [.ci, .ci, .ci], .nr),
  ("pe32_con_ext", [.ci, .ci, .ci], .nr),
  ("pe32_set_deskew", [.ci, .ci, .ci], .nr)]

/-- The if-else chain of `UltraFastIPCServer::ProcessRequestUltraFast`'s
`try` block, one row per branch in source order: command name, argument
conversions, result kind.  The source lists `pe32_init` and `pe32_set_mmsk`
twice; the duplicate rows are kept (the first match wins, as in the chain).
Split into six pieces only to keep elaboration fast. -/
def serverTable : List (String × List Conv × RetKind) :=
  serverTableA ++ serverTableB ++ serverTableC ++ serverTableD ++
    serverTableE ++ serverTableF

/-- The command names recognised by the `ProcessRequestUltraFast` chain. -/
def serverNames : List String := serverTable.map fun e => e.1

/-- The command names recognised by the `ProcessCommonAPI` chain. -/
def commonNames : List String := commonTable.map fun e => e.1

/-- `UltraFastIPCServer::ProcessCommonAPI`: try each branch in order on
`tokens[0]`; the final `else` produces the unknown-command message (the
accompanying `cout` diagnostic is not part of the protocol state). -/
def ProcessCommonAPI (env : Pe32Env) (tokens : List String)
    (response : String) : Exec String := do
  let t0 ← vecGet tokens 0
  match commonTable.find? (fun e => e.1 == t0) with
  | some e => runBranch env t0 e.2.1 e.2.2 tokens response
  | none => pure ("Unknown command :" ++ t0)

/-- Body of the `try` block of `ProcessRequestUltraFast`: the main if-else
chain on `tokens[0]`, falling through to `ProcessCommonAPI` in the final
`else`.  Every comparison `tokens[0] == "..."` first evaluates `tokens[0]`,
an out-of-bounds access when the token vector is empty. -/
def dispatchBody (env : Pe32Env) (tokens : List String)
    (response : String) : Exec String := do
  let t0 ← vecGet tokens 0
  match serverTable.find? (fun e => e.1 == t0) with
  | some e => runBranch env t0 e.2.1 e.2.2 tokens response
  | none => ProcessCommonAPI env tokens response

/-- The NUL byte terminating a C string. -/
def nul : Char := Char.ofNat 0

/-- The `SharedMemoryLayout` struct.  Buffers are byte lists (one `Char` per
`char`); the fixed capacity 4096 of the source arrays is expressed by
`Mailbox.WF` below rather than baked into the type.  The diagnostic
timestamp fields take no part in any claim and are omitted. -/
structure Mailbox where
  request_flag : Nat
  response_flag : Nat
  sequence_id : Nat
  request_size : Nat
  response_size : Nat
  request_data : List Char
  response_data : List Char
deriving DecidableEq

/-- Both data arrays of `SharedMemoryLayout` have 4096 bytes. -/
def Mailbox.WF (m : Mailbox) : Prop :=
  m.request_data.length = 4096 ∧ m.response_data.length = 4096

/-- The zero-initialised mailbox produced by `Initialize`'s placement new. -/
def initMailbox : Mailbox :=
  ⟨0, 0, 0, 0, 0, List.replicate 4096 nul, List.replicate 4096 nul⟩

/-- Stores the worker performs on the mailbox and on its own loop state,
recorded in program order so ordering claims can be stated.  The two
`pastEnd` events mark a copy or clear that runs past the 4096-byte capacity
of the targeted buffer. -/
inductive Event where
  | setRequestFlag (v : Nat)
  | setResponseFlag (v : Nat)
  | invokeHandler
  | writeResponseData
  | writeResponseSize
  | clearRequestData
  | recordSequence (v : Nat)
  | pastEndResponse
  | pastEndClear
deriving DecidableEq, BEq

/-- Reading `request_data` as a `const char*` into a `std::string`: the
bytes up to the first NUL.  When the array holds no NUL at all, `strlen`
runs past the end of the array, which is undefined behaviour. -/
def readCString (buf : List Char) : Exec String :=
  if buf.contains nul then Exec.ok (String.mk (buf.takeWhile (fun c => c ≠ nul)))
  else Exec.fault

/-- `memcpy(dest, src, src.size())` into a fixed buffer: the first
`src.length` bytes of `dest` are replaced; bytes beyond `dest`'s capacity
are simply written past its end (tracked separately by `pastEndResponse`). -/
def memcpyChars (dest src : List Char) : List Char :=
  src.take dest.length ++ dest.drop src.length

/-- `memset(dest, 0, n)` on a fixed buffer: the first `n` bytes become zero;
a count beyond the capacity writes past the end (tracked by
`pastEndClear`). -/
def memsetZero (dest : List Char) (n : Nat) : List Char :=
  List.replicate (min n dest.length) nul ++ dest.drop n

/-- Result of `ProcessRequestUltraFast`: the updated mailbox and the store
events it performed, in program order. -/
structure ProcOut where
  mb : Mailbox
  evs : List Event
deriving DecidableEq

/-- The completion tail of `ProcessRequestUltraFast` (source lines 826-831):
copy the response bytes into `response_data`, record `response_size`, then
clear the first `request_size` bytes of `request_data`. -/
def procWrite (m : Mailbox) (response : String) : ProcOut :=
  ⟨{ m with
      response_data := memcpyChars m.response_data response.data,
      response_size := response.length,
      request_data := memsetZero m.request_data m.request_size },
    [Event.writeResponseData] ++
      (if m.response_data.length < response.data.length
        then [Event.pastEndResponse] else []) ++
      [Event.writeResponseSize, Event.clearRequestData] ++
      (if m.request_data.length < m.request_size
        then [Event.pastEndClear] else [])⟩

/-- Outcome of the decode-and-dispatch part of `ProcessRequestUltraFast`:
read `request_data` as a C string, tokenize it with `Split` on a space, and
run the `try` block's chain with `response` initialised to `"0"`. -/
def bodyOutcome (env : Pe32Env) (m : Mailbox) : Exec String :=
  match readCString m.request_data with
  | Exec.ok requestData => dispatchBody env (Split requestData ' ') "0"
  | Exec.thrown => Exec.thrown
  | Exec.fault => Exec.fault

/-- `UltraFastIPCServer::ProcessRequestUltraFast`: run the dispatch body;
`catch (...)` turns a thrown C++ exception into the `"error"` response; a
fault (undefined behaviour) is caught by nothing.  Either way the surviving
path performs the completion writes of `procWrite`. -/
def ProcessRequestUltraFast (env : Pe32Env) (m : Mailbox) : Exec ProcOut :=
  match bodyOutcome env m with
  | Exec.ok response => Exec.ok (procWrite m response)
  | Exec.thrown => Exec.ok (procWrite m "error")
  | Exec.fault => Exec.fault

/-- The `STILL_ACTIVE` exit-status sentinel of the Win32 API. -/
def STILL_ACTIVE : Nat := 259

/-- One iteration's parent-liveness observation: whether
`OpenProcess(parentPid)` yields a handle, whether `GetExitCodeProcess`
succeeds, and the exit status it reports when it does. -/
structure Liveness where
  parentResolves : Bool
  queryOk : Bool
  exitCode : Nat
deriving DecidableEq

/-- The worker's loop state: the mailbox it is mapped to, the
`lastProcessedSequence` local of `StartProcessing`, and the `isRunning`
member. -/
structure WorkerState where
  mailbox : Mailbox
  lastProcessedSequence : Nat
  isRunning : Bool
deriving DecidableEq

/-- Outcome of one poll-loop iteration: the worker called `ExitProcess`
with the given status, or it hit undefined behaviour, or it reached the end
of the loop body with a new state.  Each carries the store events of the
iteration in program order. -/
inductive StepResult where
  | exited (code : Nat) (evs : List Event)
  | faulted (evs : List Event)
  | next (s : WorkerState) (evs : List Event)
deriving DecidableEq

/-- The parent-liveness tail of each loop iteration (source lines 134-164):
if `OpenProcess` returns no handle the worker calls `ExitProcess(0)`;
otherwise `exitCode` starts at 0, `GetExitCodeProcess` overwrites it only
when it succeeds, and a value different from `STILL_ACTIVE` stops the loop
by clearing `isRunning`.  A failed query only logs to `cerr`, leaving
`exitCode` at 0. -/
def livenessCheck (live : Liveness) (s : WorkerState) (evs : List Event) :
    StepResult :=
  if live.parentResolves = false then StepResult.exited 0 evs
  else
    let exitCode : Nat := if live.queryOk then live.exitCode else 0
    if exitCode ≠ STILL_ACTIVE then
      StepResult.next ⟨s.mailbox, s.lastProcessedSequence, false⟩ evs
    else StepResult.next s evs

/-- One iteration of the `StartProcessing` poll loop (source lines 98-168):
load `sequence_id` and `request_flag`; when `request_flag == 1` and the
sequence differs from `lastProcessedSequence`, claim the request by storing
`request_flag = 2`, run `ProcessRequestUltraFast`, store
`response_flag = 1` then `request_flag = 0`, and record the sequence; in
every case finish with the parent-liveness check. -/
def StartProcessingStep (env : Pe32Env) (live : Liveness) (s : WorkerState) :
    StepResult :=
  let currentSequence := s.mailbox.sequence_id
  let requestFlag := s.mailbox.request_flag
  if requestFlag = 1 ∧ currentSequence ≠ s.lastProcessedSequence then
    match ProcessRequestUltraFast env { s.mailbox with request_flag := 2 } with
    | Exec.ok po =>
        livenessCheck live
          ⟨{ po.mb with response_flag := 1, request_flag := 0 },
            currentSequence, s.isRunning⟩
          ([Event.setRequestFlag 2, Event.invokeHandler] ++ po.evs ++
            [Event.setResponseFlag 1, Event.setRequestFlag 0,
              Event.recordSequence currentSequence])
    | _ => StepResult.faulted [Event.setRequestFlag 2, Event.invokeHandler]
  else livenessCheck live s []

/-- The store events of a loop-iteration outcome. -/
def traceOf : StepResult → List Event
  | StepResult.exited _ evs => evs
  | StepResult.faulted evs => evs
  | StepResult.next _ evs => evs

/-- How a finite run of the poll loop ended. -/
inductive RunOut where
  /-- The worker called `ExitProcess` with this status. -/
  | exited (code : Nat)
  /-- The worker hit undefined behaviour. -/
  | faulted
  /-- `isRunning` became false: the loop exits and `StartProcessing`
  returns (after which `main` returns 0). -/
  | stopped (s : WorkerState)
  /-- The supplied schedule of liveness observations was exhausted with the
  loop still running. -/
  | spent (s : WorkerState)
deriving DecidableEq

/-- Run the `StartProcessing` loop under a finite schedule of per-iteration
liveness observations, accumulating the event trace. -/
def StartProcessingLoop (env : Pe32Env) :
    List Liveness → WorkerState → List Event × RunOut
  | [], s => ([], RunOut.spent s)
  | live :: rest, s =>
    if s.isRunning then
      match StartProcessingStep env live s with
      | StepResult.exited c evs => (evs, RunOut.exited c)
      | StepResult.faulted evs => (evs, RunOut.faulted)
      | StepResult.next s2 evs =>
          let r := StartProcessingLoop env rest s2
          (evs ++ r.1, r.2)
    else ([], RunOut.stopped s)

/-- A driver environment for concrete runs: every external call returns 0,
`pe32_get_msg` returns the empty string, and nothing throws. -/
def trivEnv : Pe32Env := ⟨fun _ _ => 0, fun _ _ => 0, "", fun _ _ => false⟩

/-- Observation of a healthy parent: handle opens, query succeeds, status is
`STILL_ACTIVE`. -/
def liveOk : Liveness := ⟨true, true, STILL_ACTIVE⟩

/-- Observation where the handle opens but `GetExitCodeProcess` fails even
though the parent is still running. -/
def liveQueryFail : Liveness := ⟨true, false, STILL_ACTIVE⟩

/-- Observation where `OpenProcess` can no longer resolve the parent. -/
def liveGone : Liveness := ⟨false, true, STILL_ACTIVE⟩

/-- A NUL-padded buffer of capacity `cap` holding the bytes of `s`. -/
def padTo (s : String) (cap : Nat) : List Char :=
  s.data ++ List.replicate (cap - s.data.length) nul

/-- A pending-request mailbox (capacity 32 on both buffers for concrete
runs) holding `req`, sequence `seq`, request size `rs`. -/
def mbWith (req : String) (seq rs : Nat) : Mailbox :=
  ⟨1, 0, seq, rs, 0, padTo req 32, List.replicate 32 nul⟩

/-- Worker about to service a fresh `pe32_init` request. -/
def sPing : WorkerState := ⟨mbWith "pe32_init" 1 9, 0, true⟩

/-- Worker state after servicing the `sPing` request. -/
def sPingDone : WorkerState :=
  ⟨⟨0, 1, 1, 9, 1, List.replicate 32 nul, '0' :: List.replicate 31 nul⟩, 1, true⟩

/-- The event trace of servicing the `sPing` request. -/
def pingEvs : List Event :=
  [Event.setRequestFlag 2, Event.invokeHandler, Event.writeResponseData,
    Event.writeResponseSize, Event.clearRequestData, Event.setResponseFlag 1,
    Event.setRequestFlag 0, Event.recordSequence 1]

/-- Worker with an idle mailbox (no pending request). -/
def sIdle : WorkerState :=
  ⟨⟨0, 0, 0, 0, 0, List.replicate 32 nul, List.replicate 32 nul⟩, 0, true⟩

/-- Worker signalled with a zero-length request payload. -/
def sEmptyReq : WorkerState := ⟨mbWith "" 1 0, 0, true⟩

/-- Worker signalled with a `pe32_readl` request missing its arguments. -/
def sArity : WorkerState := ⟨mbWith "pe32_readl" 1 10, 0, true⟩

/-- Worker signalled with a `pe32_readl` request whose first argument is not
numeric, so `std::stoi` throws. -/
def sThrow : WorkerState := ⟨mbWith "pe32_readl x 2" 1 14, 0, true⟩

/-- Worker signalled with an unknown command. -/
def sFrob : WorkerState := ⟨mbWith "frobnicate 1 2 3" 1 16, 0, true⟩

/-- An unknown command name of 4080 bytes: the unknown-command response then
has 4097 bytes, one more than the buffer capacity. -/
def bigName : String := String.mk (List.replicate 4080 'a')

/-- A full-capacity mailbox holding the oversized unknown command. -/
def mbBig : Mailbox :=
  ⟨1, 0, 1, 4080, 0, bigName.data ++ List.replicate 16 nul,
    List.replicate 4096 nul⟩

/-- Worker signalled with the oversized unknown command. -/
def sBig : WorkerState := ⟨mbBig, 0, true⟩

/-- A mailbox with a second, differently-filled buffer tail and a different
`request_size`, agreeing with `mbWith "pe32_init" 1 9` only on the bytes up
to the first NUL. -/
def mbJunk : Mailbox :=
  ⟨1, 0, 7, 50, 0, "pe32_init".data ++ [nul] ++ "zzz".data,
    List.replicate 8 nul⟩

/-- The requester re-signalling `Pending` on a serviced mailbox without
touching the payload or the sequence number. -/
def reSignal (s : WorkerState) : WorkerState :=
  ⟨{ s.mailbox with request_flag := 1 }, s.lastProcessedSequence, s.isRunning⟩

/-- The `response_size` field after an iteration that reaches the end of the
loop body. -/
def respSizeOf : StepResult → Option Nat
  | StepResult.next s _ => some s.mailbox.response_size
  | _ => none

/-- Selects the store events proper, discarding the past-capacity markers. -/
def isCoreEvent : Event → Bool
  | Event.pastEndResponse => false
  | Event.pastEndClear => false
  | _ => true

@[simp] theorem exec_bind_ok {α β : Type} (a : α) (f : α → Exec β) :
    (Exec.ok a >>= f) = f a := rfl

@[simp] theorem exec_bind_thrown {α β : Type} (f : α → Exec β) :
    ((Exec.thrown : Exec α) >>= f) = Exec.thrown := rfl

@[simp] theorem exec_bind_fault {α β : Type} (f : α → Exec β) :
    ((Exec.fault : Exec α) >>= f) = Exec.fault := rfl

@[simp] theorem exec_pure {α : Type} (a : α) :
    (pure a : Exec α) = Exec.ok a := rfl

/-- The dispatch outcome reads the mailbox only through `request_data`, so
overwriting `request_flag` (as the claim store to `Processing` does) leaves
it unchanged. -/
theorem bodyOutcome_request_flag (env : Pe32Env) (m : Mailbox) (v : Nat) :
    bodyOutcome env { m with request_flag := v } = bodyOutcome env m := rfl

/-- A successful `ProcessRequestUltraFast` is the completion write of either
the dispatched response or, after a caught exception, of `"error"`. -/
theorem ProcessRequest_cases (env : Pe32Env) (m : Mailbox) (po : ProcOut)
    (h : ProcessRequestUltraFast env m = Exec.ok po) :
    (bodyOutcome env m = Exec.thrown ∧ po = procWrite m "error") ∨
      ∃ r, bodyOutcome env m = Exec.ok r ∧ po = procWrite m r := by
  unfold ProcessRequestUltraFast at h
  cases hb : bodyOutcome env m <;> rw [hb] at h <;> simp at h
  · exact Or.inr ⟨_, rfl, h.symm⟩
  · exact Or.inl ⟨rfl, h.symm⟩

/-- `ProcessRequestUltraFast` never lets an exception escape: the
`catch (...)` converts it, so the only failure outcome is a fault. -/
theorem ProcessRequest_ne_thrown (env : Pe32Env) (m : Mailbox) :
    ProcessRequestUltraFast env m ≠ Exec.thrown := by
  unfold ProcessRequestUltraFast
  cases bodyOutcome env m <;> simp

/-- Fields of the mailbox that the completion write leaves untouched. -/
theorem ProcessRequest_ok_fields (env : Pe32Env) (m : Mailbox) (po : ProcOut)
    (h : ProcessRequestUltraFast env m = Exec.ok po) :
    po.mb.sequence_id = m.sequence_id ∧ po.mb.response_flag = m.response_flag ∧
      po.mb.request_flag = m.request_flag ∧
      po.mb.request_size = m.request_size := by
  rcases ProcessRequest_cases env m po h with ⟨_, rfl⟩ | ⟨r, _, rfl⟩ <;>
    exact ⟨rfl, rfl, rfl, rfl⟩

/-- The only events `ProcessRequestUltraFast` emits are its three completion
writes and the past-capacity markers. -/
theorem procWrite_evs_mem (m : Mailbox) (r : String) (e : Event)
    (h : e ∈ (procWrite m r).evs) :
    e = Event.writeResponseData ∨ e = Event.pastEndResponse ∨
      e = Event.writeResponseSize ∨ e = Event.clearRequestData ∨
      e = Event.pastEndClear := by
  by_cases h1 : m.response_data.length < r.data.length <;>
    by_cases h2 : m.request_data.length < m.request_size <;>
    simp [procWrite, h1, h2] at h <;> tauto

/-- The liveness check passes the iteration's events through unchanged. -/
theorem livenessCheck_trace (live : Liveness) (s : WorkerState)
    (evs : List Event) : traceOf (livenessCheck live s evs) = evs := by
  by_cases h1 : live.parentResolves = false
  · simp [livenessCheck, h1, traceOf]
  · by_cases h2 : (if live.queryOk then live.exitCode else 0) ≠ STILL_ACTIVE <;>
      simp [livenessCheck, h1, h2, traceOf]

/-- With a healthy parent the liveness check changes nothing. -/
theorem livenessCheck_alive (live : Liveness) (s : WorkerState)
    (evs : List Event) (h1 : live.parentResolves = true)
    (h2 : live.queryOk = true) (h3 : live.exitCode = STILL_ACTIVE) :
    livenessCheck live s evs = StepResult.next s evs := by
  simp [livenessCheck, h1, h2, h3]

/-- Whatever the liveness check decides, it only ever touches `isRunning`:
mailbox, events and last-completed sequence pass through. -/
theorem livenessCheck_next (live : Liveness) (s : WorkerState)
    (evs : List Event) (s' : WorkerState) (evs' : List Event)
    (h : livenessCheck live s evs = StepResult.next s' evs') :
    evs' = evs ∧ s'.mailbox = s.mailbox ∧
      s'.lastProcessedSequence = s.lastProcessedSequence := by
  unfold livenessCheck at h
  by_cases h1 : live.parentResolves = false
  · simp [h1] at h
  · by_cases h2 : (if live.queryOk then live.exitCode else 0) ≠ STILL_ACTIVE <;>
      simp [h1, h2] at h <;> rw [← h.1] <;> exact ⟨h.2.symm, rfl, rfl⟩

/-- An actionable iteration whose processing succeeds: claim the request,
complete it, publish the response and run the liveness check. -/
theorem step_actionable (env : Pe32Env) (live : Liveness) (s : WorkerState)
    (po : ProcOut) (h1 : s.mailbox.request_flag = 1)
    (h2 : s.mailbox.sequence_id ≠ s.lastProcessedSequence)
    (hp : ProcessRequestUltraFast env { s.mailbox with request_flag := 2 } =
      Exec.ok po) :
    StartProcessingStep env live s =
      livenessCheck live
        ⟨{ po.mb with response_flag := 1, request_flag := 0 },
          s.mailbox.sequence_id, s.isRunning⟩
        ([Event.setRequestFlag 2, Event.invokeHandler] ++ po.evs ++
          [Event.setResponseFlag 1, Event.setRequestFlag 0,
            Event.recordSequence s.mailbox.sequence_id]) := by
  simp [StartProcessingStep, h1, h2, hp]

/-- An actionable iteration whose processing hits undefined behaviour. -/
theorem step_actionable_fault (env : Pe32Env) (live : Liveness)
    (s : WorkerState) (h1 : s.mailbox.request_flag = 1)
    (h2 : s.mailbox.sequence_id ≠ s.lastProcessedSequence)
    (hp : ProcessRequestUltraFast env { s.mailbox with request_flag := 2 } =
      Exec.fault) :
    StartProcessingStep env live s =
      StepResult.faulted [Event.setRequestFlag 2, Event.invokeHandler] := by
  simp [StartProcessingStep, h1, h2, hp]

/-- A non-actionable iteration goes straight to the liveness check. -/
theorem step_idle (env : Pe32Env) (live : Liveness) (s : WorkerState)
    (h : ¬(s.mailbox.request_flag = 1 ∧
      s.mailbox.sequence_id ≠ s.lastProcessedSequence)) :
    StartProcessingStep env live s = livenessCheck live s [] := by
  simp only [StartProcessingStep]
  rw [if_neg h]

/-- Any `response_flag` store appearing in one iteration's trace writes 1. -/
theorem step_trace_resp_flag (env : Pe32Env) (live : Liveness)
    (s : WorkerState) (v : Nat)
    (h : Event.setResponseFlag v ∈ traceOf (StartProcessingStep env live s)) :
    v = 1 := by
  by_cases ha : s.mailbox.request_flag = 1 ∧
      s.mailbox.sequence_id ≠ s.lastProcessedSequence
  · cases hp : ProcessRequestUltraFast env { s.mailbox with request_flag := 2 } with
    | ok po =>
        rw [step_actionable env live s po ha.1 ha.2 hp, livenessCheck_trace] at h
        simp [List.mem_append] at h
        rcases h with h | h
        · rcases ProcessRequest_cases _ _ _ hp with ⟨_, rfl⟩ | ⟨r, _, rfl⟩ <;>
            rcases procWrite_evs_mem _ _ _ h with h' | h' | h' | h' | h' <;>
            simp at h'
        · exact h
    | thrown => exact absurd hp (ProcessRequest_ne_thrown _ _)
    | fault =>
        rw [step_actionable_fault env live s ha.1 ha.2 hp] at h
        simp [traceOf] at h
  · rw [step_idle env live s ha, livenessCheck_trace] at h
    simp at h

/-- Claim C9: after initialization the worker never resets `response_flag`:
every store it performs to `response_flag`, over any run of the poll loop
from any state under any driver environment and liveness schedule, writes
`Ready` (1); resetting to `NotReady` (0) is left entirely to the
requester. -/
theorem C9_worker_never_resets_response_flag (env : Pe32Env)
    (lives : List Liveness) (s : WorkerState) (v : Nat)
    (h : Event.setResponseFlag v ∈ (StartProcessingLoop env lives s).1) :
    v = 1 := by
  induction lives generalizing s with
  | nil => simp [StartProcessingLoop] at h
  | cons live rest ih =>
      simp only [StartProcessingLoop] at h
      by_cases hr : s.isRunning = true
      · rw [if_pos hr] at h
        cases hstep : StartProcessingStep env live s <;> rw [hstep] at h
        · exact step_trace_resp_flag env live s v (by rw [hstep]; exact h)
        · exact step_trace_resp_flag env live s v (by rw [hstep]; exact h)
        · rcases List.mem_append.mp h with h' | h'
          · exact step_trace_resp_flag env live s v (by rw [hstep]; exact h')
          · exact ih _ h'
      · rw [if_neg hr] at h
        simp at h

/-- Witness for C9 at a concrete run that does store `response_flag`. -/
theorem C9_worker_never_resets_response_flag_witness : (1 : Nat) = 1 :=
  C9_worker_never_resets_response_flag trivEnv [liveOk] sPing 1
    (by rw [show (StartProcessingLoop trivEnv [liveOk] sPing).1 = pingEvs from
          by decide]
        simp [pingEvs])

/-- Claim C1: on every poll-loop iteration the worker invokes the command
handler exactly when it observes `request_flag = 1` together with a
`sequence_id` different from the last sequence it completed; and after a
completed cycle, re-signalling `Pending` with the same `sequence_id` and
unchanged payload never causes a second invocation of the handler. -/
theorem C1_handler_gating_and_dedup (env : Pe32Env) (live : Liveness)
    (s : WorkerState) :
    ((Event.invokeHandler ∈ traceOf (StartProcessingStep env live s)) ↔
      (s.mailbox.request_flag = 1 ∧
        s.mailbox.sequence_id ≠ s.lastProcessedSequence)) ∧
    (∀ s' evs live2, s.mailbox.request_flag = 1 →
      s.mailbox.sequence_id ≠ s.lastProcessedSequence →
      StartProcessingStep env live s = StepResult.next s' evs →
      Event.invokeHandler ∉
        traceOf (StartProcessingStep env live2 (reSignal s'))) := by
  constructor
  · constructor
    · intro h
      by_cases ha : s.mailbox.request_flag = 1 ∧
          s.mailbox.sequence_id ≠ s.lastProcessedSequence
      · exact ha
      · rw [step_idle env live s ha, livenessCheck_trace] at h
        simp at h
    · intro ha
      cases hp : ProcessRequestUltraFast env
          { s.mailbox with request_flag := 2 } with
      | ok po =>
          rw [step_actionable env live s po ha.1 ha.2 hp, livenessCheck_trace]
          simp
      | thrown => exact absurd hp (ProcessRequest_ne_thrown _ _)
      | fault =>
          rw [step_actionable_fault env live s ha.1 ha.2 hp]
          simp [traceOf]
  · intro s' evs live2 h1 h2 hstep
    cases hp : ProcessRequestUltraFast env
        { s.mailbox with request_flag := 2 } with
    | thrown => exact absurd hp (ProcessRequest_ne_thrown _ _)
    | fault =>
        rw [step_actionable_fault env live s h1 h2 hp] at hstep
        simp at hstep
    | ok po =>
        rw [step_actionable env live s po h1 h2 hp] at hstep
        obtain ⟨hevs, hmb, hlast⟩ := livenessCheck_next _ _ _ _ _ hstep
        have hseq : (reSignal s').mailbox.sequence_id =
            s.mailbox.sequence_id := by
          show s'.mailbox.sequence_id = s.mailbox.sequence_id
          rw [hmb]
          exact (ProcessRequest_ok_fields _ _ _ hp).1
        have hlast2 : (reSignal s').lastProcessedSequence =
            s.mailbox.sequence_id := hlast
        rw [step_idle env live2 (reSignal s')
            (fun hc => hc.2 (hseq.trans hlast2.symm)), livenessCheck_trace]
        simp

/-- Witness for C1: the `pe32_init` cycle, then a re-signal of `Pending`
with the same sequence does not reach the handler. -/
theorem C1_handler_gating_and_dedup_witness :
    Event.invokeHandler ∉
      traceOf (StartProcessingStep trivEnv liveOk (reSignal sPingDone)) :=
  (C1_handler_gating_and_dedup trivEnv liveOk sPing).2 sPingDone pingEvs
    liveOk (by decide) (by decide) (by decide)

/-- Claim C4 (code bug): with no pending request and a parent that is alive
but whose exit-status query fails, the iteration does not merely log and
continue — `exitCode` keeps its initial value 0, which differs from
`STILL_ACTIVE`, so the worker clears `isRunning`; the next loop check then
stops the poll loop for good.  The claim (and the spec) say a failed query
alone never stops the loop. -/
theorem C4_failed_query_stops_loop :
    StartProcessingStep trivEnv liveQueryFail sIdle =
      StepResult.next ⟨sIdle.mailbox, 0, false⟩ [] ∧
    StartProcessingLoop trivEnv [liveQueryFail, liveOk] sIdle =
      ([], RunOut.stopped ⟨sIdle.mailbox, 0, false⟩) := by
  constructor <;> decide

/-- Claim C7 (code bug): a zero-length request payload signalled as
`Pending` with a fresh sequence does not complete the handshake: `Split`
yields an empty token vector and the first chain comparison evaluates
`tokens[0]`, an out-of-bounds `std::vector` access (undefined behaviour),
before any response or flag write happens. -/
theorem C7_empty_payload_faults :
    StartProcessingStep trivEnv liveOk sEmptyReq =
      StepResult.faulted [Event.setRequestFlag 2, Event.invokeHandler] := by
  decide

/-- Counterexample to claim C2 as stated: a request with a wrong arity
(`pe32_readl` without its two arguments) does not raise a catchable C++
exception; evaluating `tokens[1]` is an out-of-bounds `std::vector` access,
undefined behaviour that bypasses the `catch (...)`, so no `"error"`
response is written and the handshake does not complete. -/
theorem C2_wrong_arity_not_caught :
    StartProcessingStep trivEnv liveOk sArity =
      StepResult.faulted [Event.setRequestFlag 2, Event.invokeHandler] := by
  decide

/-- Claim C5: when `OpenProcess` can no longer resolve the parent on some
iteration, the worker calls `ExitProcess(0)` within that iteration —
provided the iteration's own mailbox servicing did not fault first — and
the rest of the liveness schedule is never consumed: no further handshake
cycle completes after that iteration. -/
theorem C5_orphan_exits_immediately (env : Pe32Env) (live : Liveness)
    (rest : List Liveness) (s : WorkerState)
    (h1 : live.parentResolves = false) (h2 : s.isRunning = true)
    (h3 : ProcessRequestUltraFast env { s.mailbox with request_flag := 2 } ≠
      Exec.fault) :
    (StartProcessingLoop env (live :: rest) s).2 = RunOut.exited 0 ∧
    StartProcessingLoop env (live :: rest) s =
      StartProcessingLoop env [live] s := by
  have hstep : ∃ evs, StartProcessingStep env live s =
      StepResult.exited 0 evs := by
    by_cases ha : s.mailbox.request_flag = 1 ∧
        s.mailbox.sequence_id ≠ s.lastProcessedSequence
    · cases hp : ProcessRequestUltraFast env
          { s.mailbox with request_flag := 2 } with
      | ok po =>
          rw [step_actionable env live s po ha.1 ha.2 hp,
            show ∀ s2 evs2, livenessCheck live s2 evs2 =
                StepResult.exited 0 evs2 from
              fun s2 evs2 => by simp [livenessCheck, h1]]
          exact ⟨_, rfl⟩
      | thrown => exact absurd hp (ProcessRequest_ne_thrown _ _)
      | fault => exact absurd hp h3
    · rw [step_idle env live s ha,
        show ∀ s2 evs2, livenessCheck live s2 evs2 =
            StepResult.exited 0 evs2 from
          fun s2 evs2 => by simp [livenessCheck, h1]]
      exact ⟨[], rfl⟩
  obtain ⟨evs, hstep⟩ := hstep
  constructor <;> simp [StartProcessingLoop, h2, hstep]

/-- Witness for C5: a vanished parent with a serviceable `pe32_init`
request pending. -/
theorem C5_orphan_exits_immediately_witness :
    (StartProcessingLoop trivEnv [liveGone, liveOk] sPing).2 =
      RunOut.exited 0 ∧
    StartProcessingLoop trivEnv [liveGone, liveOk] sPing =
      StartProcessingLoop trivEnv [liveGone] sPing :=
  C5_orphan_exits_immediately trivEnv liveGone [liveOk] sPing (by decide)
    (by decide) (by decide)

/-- A response that fits the buffer is recovered verbatim from the front of
the buffer after the `memcpy`. -/
theorem memcpy_take (dest src : List Char) (h : src.length ≤ dest.length) :
    (memcpyChars dest src).take src.length = src := by
  unfold memcpyChars
  rw [List.take_of_length_le h]
  exact List.take_left src (dest.drop src.length)

/-- Claim C2 as amended: for every request whose dispatch raises a C++
exception (a malformed numeric argument, a throwing handler), the worker
catches it at the `catch (...)` boundary, writes the fixed marker `"error"`
as the response payload with `response_size = 5`, and still completes the
handshake: `response_flag = Ready`, `request_flag = Empty`, with the worker
still running afterwards (given a healthy parent).  Wrong arity, by
contrast, is an out-of-bounds `std::vector` access — undefined behaviour
that the catch does not see (see the counterexample). -/
theorem C2_caught_exception_writes_error (env : Pe32Env) (live : Liveness)
    (s : WorkerState) (h1 : s.mailbox.request_flag = 1)
    (h2 : s.mailbox.sequence_id ≠ s.lastProcessedSequence)
    (hb : bodyOutcome env s.mailbox = Exec.thrown)
    (h4 : live.parentResolves = true) (h5 : live.queryOk = true)
    (h6 : live.exitCode = STILL_ACTIVE)
    (h7 : 5 ≤ s.mailbox.response_data.length) :
    ∃ s' evs, StartProcessingStep env live s = StepResult.next s' evs ∧
      s'.mailbox.response_size = 5 ∧
      s'.mailbox.response_data.take 5 = "error".data ∧
      s'.mailbox.response_flag = 1 ∧ s'.mailbox.request_flag = 0 ∧
      s'.isRunning = s.isRunning := by
  have hp : ProcessRequestUltraFast env { s.mailbox with request_flag := 2 } =
      Exec.ok (procWrite { s.mailbox with request_flag := 2 } "error") := by
    unfold ProcessRequestUltraFast
    rw [show bodyOutcome env { s.mailbox with request_flag := 2 } =
        Exec.thrown from hb]
  rw [step_actionable env live s _ h1 h2 hp,
    livenessCheck_alive _ _ _ h4 h5 h6]
  exact ⟨_, _, rfl, rfl,
    memcpy_take ({ s.mailbox with request_flag := 2 } : Mailbox).response_data
      "error".data h7, rfl, rfl, rfl⟩

/-- Witness for the amended C2: `pe32_readl x 2` makes `std::stoi` throw;
the worker answers `"error"` and completes the handshake. -/
theorem C2_caught_exception_writes_error_witness :
    ∃ s' evs, StartProcessingStep trivEnv liveOk sThrow =
        StepResult.next s' evs ∧
      s'.mailbox.response_size = 5 ∧
      s'.mailbox.response_data.take 5 = "error".data ∧
      s'.mailbox.response_flag = 1 ∧ s'.mailbox.request_flag = 0 ∧
      s'.isRunning = sThrow.isRunning :=
  C2_caught_exception_writes_error trivEnv liveOk sThrow (by decide)
    (by decide) (by decide) (by decide) (by decide) (by decide) (by decide)

/-- Counterexample to claim C3 as stated: in a serviced `pe32_init` cycle
the request buffer is cleared (inside `ProcessRequestUltraFast`, right
after the response bytes and size are written) strictly before
`response_flag = Ready` is stored — not after the flags and the sequence
record as the claim requires. -/
theorem C3_clear_precedes_flags :
    traceOf (StartProcessingStep trivEnv liveOk sPing) = pingEvs ∧
    pingEvs.indexOf Event.clearRequestData <
      pingEvs.indexOf (Event.setResponseFlag 1) := by
  constructor <;> decide

/-- Claim C3 as amended: for every serviced request the completion steps
run in this order — write the response bytes, write `response_size`, clear
the request buffer contents, then set `response_flag = Ready`, then
`request_flag = Empty`, and record `sequence_id` as last-completed.  (The
clearing thus happens before the flag stores, not after them.) -/
theorem C3_completion_order (env : Pe32Env) (live : Liveness)
    (s : WorkerState) (po : ProcOut) (h1 : s.mailbox.request_flag = 1)
    (h2 : s.mailbox.sequence_id ≠ s.lastProcessedSequence)
    (hp : ProcessRequestUltraFast env { s.mailbox with request_flag := 2 } =
      Exec.ok po) :
    (traceOf (StartProcessingStep env live s)).filter isCoreEvent =
      [Event.setRequestFlag 2, Event.invokeHandler, Event.writeResponseData,
        Event.writeResponseSize, Event.clearRequestData,
        Event.setResponseFlag 1, Event.setRequestFlag 0,
        Event.recordSequence s.mailbox.sequence_id] := by
  rw [step_actionable env live s po h1 h2 hp, livenessCheck_trace]
  rcases ProcessRequest_cases _ _ _ hp with ⟨_, rfl⟩ | ⟨r, _, rfl⟩ <;>
    simp only [procWrite] <;> split_ifs <;>
      simp [isCoreEvent, List.filter]

/-- Witness for the amended C3 at the `pe32_init` cycle. -/
theorem C3_completion_order_witness :
    (traceOf (StartProcessingStep trivEnv liveOk sPing)).filter isCoreEvent =
      pingEvs :=
  C3_completion_order trivEnv liveOk sPing
    (procWrite { sPing.mailbox with request_flag := 2 } "0") (by decide)
    (by decide) (by decide)

/-- A first token outside a chain's name column makes its lookup fail. -/
theorem find_none_of_not_mem (tbl : List (String × List Conv × RetKind))
    (t0 : String) (h : t0 ∉ tbl.map fun e => e.1) :
    tbl.find? (fun e => e.1 == t0) = none := by
  rw [List.find?_eq_none]
  intro x hx hbeq
  exact h (beq_iff_eq.mp hbeq ▸ List.mem_map_of_mem _ hx)

/-- A nonempty token vector whose first token no branch of either chain
matches reaches the final `else` of `ProcessCommonAPI` and produces the
unknown-command message deterministically, without throwing. -/
theorem dispatch_unknown (env : Pe32Env) (t0 : String) (rest : List String)
    (response : String) (h1 : t0 ∉ serverNames) (h2 : t0 ∉ commonNames) :
    dispatchBody env (t0 :: rest) response =
      Exec.ok ("Unknown command :" ++ t0) := by
  have f1 := find_none_of_not_mem serverTable t0 h1
  have f2 := find_none_of_not_mem commonTable t0 h2
  simp [dispatchBody, ProcessCommonAPI, vecGet, f1, f2]

/-- Claim C6: for every request whose first token matches no registered
command name in either chain, the worker produces the deterministic,
non-throwing message `"Unknown command :<name>"` naming the unknown
command, writes it (and its size) as the response, and `request_flag`
still returns to `Empty` at the end of the cycle. -/
theorem C6_unknown_command_named (env : Pe32Env) (live : Liveness)
    (s : WorkerState) (t0 : String) (rest : List String)
    (hsplit : Split (String.mk
        (s.mailbox.request_data.takeWhile (fun c => c ≠ nul))) ' ' =
      t0 :: rest)
    (hnul : s.mailbox.request_data.contains nul = true)
    (h1 : t0 ∉ serverNames) (h2 : t0 ∉ commonNames)
    (hf : s.mailbox.request_flag = 1)
    (hs : s.mailbox.sequence_id ≠ s.lastProcessedSequence)
    (h4 : live.parentResolves = true) (h5 : live.queryOk = true)
    (h6 : live.exitCode = STILL_ACTIVE)
    (hcap : ("Unknown command :" ++ t0).data.length ≤
      s.mailbox.response_data.length) :
    ∃ s' evs, StartProcessingStep env live s = StepResult.next s' evs ∧
      s'.mailbox.response_size = ("Unknown command :" ++ t0).length ∧
      s'.mailbox.response_data.take ("Unknown command :" ++ t0).data.length =
        ("Unknown command :" ++ t0).data ∧
      s'.mailbox.request_flag = 0 := by
  have hb : bodyOutcome env { s.mailbox with request_flag := 2 } =
      Exec.ok ("Unknown command :" ++ t0) := by
    show bodyOutcome env s.mailbox = _
    unfold bodyOutcome
    rw [show readCString s.mailbox.request_data = Exec.ok (String.mk
        (s.mailbox.request_data.takeWhile (fun c => c ≠ nul))) from by
      unfold readCString
      rw [hnul]
      rfl]
    show dispatchBody env (Split (String.mk
      (s.mailbox.request_data.takeWhile (fun c => c ≠ nul))) ' ') "0" = _
    rw [hsplit]
    exact dispatch_unknown env t0 rest "0" h1 h2
  have hp : ProcessRequestUltraFast env
      { s.mailbox with request_flag := 2 } =
      Exec.ok (procWrite { s.mailbox with request_flag := 2 }
        ("Unknown command :" ++ t0)) := by
    unfold ProcessRequestUltraFast
    rw [hb]
  rw [step_actionable env live s _ hf hs hp,
    livenessCheck_alive _ _ _ h4 h5 h6]
  exact ⟨_, _, rfl, rfl,
    memcpy_take ({ s.mailbox with request_flag := 2 } : Mailbox).response_data
      ("Unknown command :" ++ t0).data hcap, rfl⟩

/-- Witness for C6: the spec's own example `frobnicate 1 2 3`. -/
theorem C6_unknown_command_named_witness :
    ∃ s' evs, StartProcessingStep trivEnv liveOk sFrob =
        StepResult.next s' evs ∧
      s'.mailbox.response_size =
        ("Unknown command :" ++ "frobnicate").length ∧
      s'.mailbox.response_data.take
          ("Unknown command :" ++ "frobnicate").data.length =
        ("Unknown command :" ++ "frobnicate").data ∧
      s'.mailbox.request_flag = 0 :=
  C6_unknown_command_named trivEnv liveOk sFrob "frobnicate" ["1", "2", "3"]
    (by decide) (by decide) (by decide) (by decide) (by decide) (by decide)
    (by decide) (by decide) (by decide) (by decide)

/-- The completion write marks a past-capacity copy exactly when the
response is longer than the (4096-byte) response buffer. -/
theorem procWrite_pastEnd (m : Mailbox) (r : String) :
    (Event.pastEndResponse ∈ (procWrite m r).evs) ↔
      m.response_data.length < r.data.length := by
  by_cases hc : m.response_data.length < r.data.length <;>
    by_cases hc2 : m.request_data.length < m.request_size <;>
    simp [procWrite, hc, hc2]

/-- Claim C8 as amended, part 1: the response copy is unchecked.  Whatever
response a serviced request produces, its bytes are `memcpy`-ed into the
response buffer and its full length recorded in `response_size`; the copy
runs past the buffer's capacity precisely when the response is longer than
the buffer, with no rejection or error signalling in either case. -/
theorem C8_unchecked_response_copy (env : Pe32Env) (m : Mailbox)
    (po : ProcOut) (h : ProcessRequestUltraFast env m = Exec.ok po) :
    ∃ response : String, po.mb.response_size = response.length ∧
      po.mb.response_data = memcpyChars m.response_data response.data ∧
      ((Event.pastEndResponse ∈ po.evs) ↔
        m.response_data.length < response.data.length) := by
  rcases ProcessRequest_cases _ _ _ h with ⟨_, rfl⟩ | ⟨r, _, rfl⟩
  · exact ⟨"error", rfl, rfl, procWrite_pastEnd m "error"⟩
  · exact ⟨r, rfl, rfl, procWrite_pastEnd m r⟩

/-- Witness for the amended C8 on a small in-bounds cycle. -/
theorem C8_unchecked_response_copy_witness :
    ∃ response : String,
      (procWrite (mbWith "pe32_init" 1 9) "0").mb.response_size =
        response.length ∧
      (procWrite (mbWith "pe32_init" 1 9) "0").mb.response_data =
        memcpyChars (mbWith "pe32_init" 1 9).response_data response.data ∧
      ((Event.pastEndResponse ∈ (procWrite (mbWith "pe32_init" 1 9) "0").evs) ↔
        (mbWith "pe32_init" 1 9).response_data.length <
          response.data.length) :=
  C8_unchecked_response_copy trivEnv (mbWith "pe32_init" 1 9)
    (procWrite (mbWith "pe32_init" 1 9) "0") (by decide)

/-- Bytes before a NUL-padded tail: the C-string view of the oversized
request is exactly its 4080 `a`s. -/
theorem takeWhile_aaa_nul (n m : Nat) :
    (List.replicate n 'a' ++ List.replicate m nul).takeWhile
      (fun c => c ≠ nul) = List.replicate n 'a' := by
  induction n with
  | zero =>
      cases m with
      | zero => rfl
      | succ k => simp [List.replicate_succ, List.takeWhile_cons, nul]
  | succ k ih =>
      have ha : ('a' ≠ nul) := by decide
      simp [List.replicate_succ, List.takeWhile_cons, ha, ih]

/-- Tokenizing a delimiter-free character run yields that run appended to
the token being collected. -/
theorem splitAux_no_delim (n : Nat) (acc : List Char) (hacc : acc ≠ []) :
    splitAux ' ' (List.replicate n 'a') acc =
      [String.mk (acc.reverse ++ List.replicate n 'a')] := by
  induction n generalizing acc with
  | zero =>
      simp [splitAux, List.isEmpty_iff, hacc]
  | succ k ih =>
      have ha : ¬('a' = ' ') := by decide
      rw [List.replicate_succ]
      simp only [splitAux, ha, if_false]
      rw [ih ('a' :: acc) (by simp)]
      simp [List.replicate_succ]

/-- Tokenizing a nonempty delimiter-free run from an empty accumulator
yields the single token holding the run. -/
theorem splitAux_repl (n : Nat) :
    splitAux ' ' (List.replicate (n + 1) 'a') [] =
      [String.mk (List.replicate (n + 1) 'a')] := by
  rw [List.replicate_succ]
  simp only [splitAux, show ¬('a' = ' ') from by decide, if_false]
  rw [splitAux_no_delim n ['a'] (by simp)]
  simp [List.replicate_succ]

/-- The byte length of the oversized unknown-command response: one past the
4096-byte buffer capacity. -/
theorem bigMsg_length : ("Unknown command :" ++ bigName).data.length = 4097 := by
  rw [String.data_append, List.length_append,
    show bigName.data.length = 4080 from by
      show (List.replicate 4080 'a').length = 4080
      rw [List.length_replicate]]
  norm_num

/-- Counterexample to claim C8 as stated: a request producing a 4097-byte
response (an unknown command whose name has 4080 bytes) is not rejected and
not signalled — the worker `memcpy`s all 4097 bytes, writing one byte past
the 4096-byte response buffer, and records `response_size = 4097`. -/
theorem C8_oversized_written_past_buffer :
    Event.pastEndResponse ∈ traceOf (StartProcessingStep trivEnv liveOk sBig) ∧
    respSizeOf (StartProcessingStep trivEnv liveOk sBig) = some 4097 := by
  have hns : bigName ∉ serverNames := by decide
  have hnc : bigName ∉ commonNames := by decide
  have hsplit : Split bigName ' ' = [bigName] := by
    show splitAux ' ' (List.replicate 4080 'a') [] = [bigName]
    rw [show (4080 : Nat) = 4079 + 1 from by norm_num, splitAux_repl 4079]
    rfl
  have hcont : mbBig.request_data.contains nul = true := by
    have hm : nul ∈ mbBig.request_data := by
      show nul ∈ bigName.data ++ List.replicate 16 nul
      exact List.mem_append_right _ (by simp [List.mem_replicate])
    exact List.elem_eq_true_of_mem hm
  have hread : readCString mbBig.request_data = Exec.ok bigName := by
    unfold readCString
    rw [hcont]
    show Exec.ok (String.mk ((List.replicate 4080 'a' ++
      List.replicate 16 nul).takeWhile (fun c => c ≠ nul))) = Exec.ok bigName
    rw [takeWhile_aaa_nul]
    rfl
  have hbody : bodyOutcome trivEnv mbBig =
      Exec.ok ("Unknown command :" ++ bigName) := by
    unfold bodyOutcome
    rw [hread]
    show dispatchBody trivEnv (Split bigName ' ') "0" = _
    rw [hsplit]
    exact dispatch_unknown trivEnv bigName [] "0" hns hnc
  have hbody2 : bodyOutcome trivEnv { mbBig with request_flag := 2 } =
      Exec.ok ("Unknown command :" ++ bigName) := by
    rw [bodyOutcome_request_flag]
    exact hbody
  have hp : ProcessRequestUltraFast trivEnv { mbBig with request_flag := 2 } =
      Exec.ok (procWrite { mbBig with request_flag := 2 }
        ("Unknown command :" ++ bigName)) := by
    unfold ProcessRequestUltraFast
    rw [hbody2]
  have hlen : ({ mbBig with request_flag := 2 } : Mailbox).response_data.length <
      ("Unknown command :" ++ bigName).data.length := by
    rw [bigMsg_length]
    show (List.replicate 4096 nul).length < 4097
    rw [List.length_replicate]
    norm_num
  rw [step_actionable trivEnv liveOk sBig _ rfl (by decide) hp,
    livenessCheck_alive _ _ _ rfl rfl rfl]
  constructor
  · simp only [traceOf]
    refine List.mem_append.mpr (Or.inl ?_)
    refine List.mem_append.mpr (Or.inr ?_)
    exact (procWrite_pastEnd _ _).mpr hlen
  · show some (procWrite { mbBig with request_flag := 2 }
        ("Unknown command :" ++ bigName)).mb.response_size = some 4097
    rw [show (procWrite { mbBig with request_flag := 2 }
        ("Unknown command :" ++ bigName)).mb.response_size =
      ("Unknown command :" ++ bigName).data.length from rfl, bigMsg_length]

/-- The dispatch outcome never reads `request_size`. -/
theorem bodyOutcome_request_size (env : Pe32Env) (m : Mailbox) (n : Nat) :
    bodyOutcome env { m with request_size := n } = bodyOutcome env m := rfl

/-- Claim C10: which handler runs and what response is produced depend only
on the bytes of `request_data` up to its first NUL; `request_size` affects
neither the dispatch outcome nor the response written back, and its only
effect is the number of leading request-buffer bytes cleared after the
response is written. -/
theorem C10_dispatch_ignores_request_size (env : Pe32Env) (m₁ m₂ : Mailbox)
    (n : Nat) (po : ProcOut)
    (hpre : m₁.request_data.takeWhile (fun c => c ≠ nul) =
      m₂.request_data.takeWhile (fun c => c ≠ nul))
    (h1 : m₁.request_data.contains nul = true)
    (h2 : m₂.request_data.contains nul = true)
    (hp : ProcessRequestUltraFast env m₁ = Exec.ok po) :
    bodyOutcome env m₁ = bodyOutcome env m₂ ∧
    bodyOutcome env { m₁ with request_size := n } = bodyOutcome env m₁ ∧
    (∃ po2, ProcessRequestUltraFast env { m₁ with request_size := n } =
        Exec.ok po2 ∧
      po2.mb.response_data = po.mb.response_data ∧
      po2.mb.response_size = po.mb.response_size) ∧
    po.mb.request_data =
      List.replicate (min m₁.request_size m₁.request_data.length) nul ++
        m₁.request_data.drop m₁.request_size := by
  have hread1 : readCString m₁.request_data = Exec.ok (String.mk
      (m₁.request_data.takeWhile (fun c => c ≠ nul))) := by
    unfold readCString
    rw [h1]
    rfl
  have hread2 : readCString m₂.request_data = Exec.ok (String.mk
      (m₂.request_data.takeWhile (fun c => c ≠ nul))) := by
    unfold readCString
    rw [h2]
    rfl
  refine ⟨?_, bodyOutcome_request_size env m₁ n, ?_, ?_⟩
  · unfold bodyOutcome
    rw [hread1, hread2, hpre]
  · rcases ProcessRequest_cases env m₁ po hp with ⟨hb, rfl⟩ | ⟨r, hb, rfl⟩
    · refine ⟨procWrite { m₁ with request_size := n } "error", ?_, rfl, rfl⟩
      unfold ProcessRequestUltraFast
      rw [bodyOutcome_request_size env m₁ n, hb]
    · refine ⟨procWrite { m₁ with request_size := n } r, ?_, rfl, rfl⟩
      unfold ProcessRequestUltraFast
      rw [bodyOutcome_request_size env m₁ n, hb]
  · rcases ProcessRequest_cases env m₁ po hp with ⟨hb, rfl⟩ | ⟨r, hb, rfl⟩ <;>
      rfl

/-- Witness for C10 with two mailboxes agreeing up to the first NUL. -/
theorem C10_dispatch_ignores_request_size_witness :
    bodyOutcome trivEnv (mbWith "pe32_init" 1 9) = bodyOutcome trivEnv mbJunk ∧
    bodyOutcome trivEnv { mbWith "pe32_init" 1 9 with request_size := 5 } =
      bodyOutcome trivEnv (mbWith "pe32_init" 1 9) ∧
    (∃ po2, ProcessRequestUltraFast trivEnv
        { mbWith "pe32_init" 1 9 with request_size := 5 } = Exec.ok po2 ∧
      po2.mb.response_data =
        (procWrite (mbWith "pe32_init" 1 9) "0").mb.response_data ∧
      po2.mb.response_size =
        (procWrite (mbWith "pe32_init" 1 9) "0").mb.response_size) ∧
    (procWrite (mbWith "pe32_init" 1 9) "0").mb.request_data =
      List.replicate (min (mbWith "pe32_init" 1 9).request_size
          (mbWith "pe32_init" 1 9).request_data.length) nul ++
        (mbWith "pe32_init" 1 9).request_data.drop
          (mbWith "pe32_init" 1 9).request_size :=
  C10_dispatch_ignores_request_size trivEnv (mbWith "pe32_init" 1 9) mbJunk 5
    (procWrite (mbWith "pe32_init" 1 9) "0") (by decide) (by decide)
    (by decide) (by decide)
